import Mathlib

/-!
Shallow embedding of the domain-checker-api server variants: the
RDAP/Namecheap server (first section of src/server.js), the Name.com server
with its rate limiter (second section of src/server.js), and the Porkbun
proxy variant (src/unnamed/part_000). Network I/O is abstracted by passing
each upstream HTTP outcome as an explicit value; JS truthiness and axios
resolve/reject semantics are modelled explicitly, and thrown JS errors are
modelled as `Except.error` carrying the error message string.
-/

deriving instance DecidableEq for Except

namespace DomainChecker

/-- Method tags of a normalized check result: the JS strings `RDAP`,
`Namecheap`, `Name.com` and `error`. -/
inductive Method where
  | RDAP
  | Namecheap
  | Namecom
  | error
deriving DecidableEq, Repr, Inhabited

/-- One normalized check result, the JSON object the handlers build.
Optional fields default to `none` / `false`, matching absent JS fields. -/
structure CheckResult where
  domain : String
  available : Bool
  method : Method
  speed : Option String := none
  error : Option String := none
  price : Option Nat := none
  renewalPrice : Option Nat := none
  premium : Bool := false
  tld : Option String := none
  purchaseType : Option String := none
deriving DecidableEq, Repr, Inhabited

/-- Truthiness in JS of an optional string value: `undefined`, `null` and
the empty string are falsy. -/
def jsTruthyStr : Option String → Bool
  | none => false
  | some s => !(s == "")

/-- Behaviour of JS `a || b` for an optional string `a` (empty string is
falsy and falls through to the default). -/
def jsOrStr (o : Option String) (d : String) : String :=
  match o with
  | some s => if s == "" then d else s
  | none => d

/-- Behaviour of JS `a || null` for an optional number (`0` is falsy and
collapses to `null`). -/
def jsOrNullNat : Option Nat → Option Nat
  | some 0 => none
  | o => o

/-- Behaviour of JS `String.prototype.includes(pat)`: `pat` occurs as a
contiguous substring of `s`. -/
def strIncludes (s pat : String) : Bool :=
  (List.range (s.toList.length + 1)).any fun i => pat.toList.isPrefixOf (s.toList.drop i)

/-- Behaviour of JS `String.prototype.split(sep)` for the single-character
separator used by the source: splits on every occurrence, keeping empty
pieces. -/
def splitChars (sep : Char) : List Char → List Char → List String
  | [], acc => [String.mk acc.reverse]
  | c :: rest, acc =>
    if c == sep then String.mk acc.reverse :: splitChars sep rest []
    else splitChars sep rest (c :: acc)

/-- Expression `domain.split('.').pop()` from `checkViaRDAP`. -/
def lastDotComponent (s : String) : String :=
  (splitChars '.' s.toList []).getLastD ""

/-- Table `RDAP_SERVERS` (src/server.js lines 13-20). -/
def RDAP_SERVERS (tld : String) : Option String :=
  if tld == "com" then some "https://rdap.verisign.com/com/v1"
  else if tld == "net" then some "https://rdap.verisign.com/net/v1"
  else if tld == "co" then some "https://rdap.nic.co/rdap"
  else if tld == "org" then some "https://rdap.publicinterestregistry.org/rdap"
  else if tld == "io" then some "https://rdap.nic.io"
  else if tld == "ai" then some "https://rdap.nic.ai"
  else none

/-- Outcome of the axios GET issued by `checkViaRDAP`: either the server
replied with some HTTP status, or the request failed with no response
(network error or timeout), carrying the thrown error's message. -/
inductive RdapUpstream where
  | reply (status : Nat)
  | netFail (msg : String)
deriving DecidableEq, Repr

/-- Function `checkViaRDAP` (src/server.js lines 23-56). axios is configured
with `validateStatus` accepting exactly status 200 or 404, so replies with
either status RESOLVE and take the `available:false` return at line 38,
while any other status REJECTS with `error.response` set; the catch block
then tests `error.response.status === 404` (a branch that is consequently
unreachable) and otherwise rethrows. -/
def checkViaRDAP (domain : String) (up : RdapUpstream) : Except String CheckResult :=
  let tld := lastDotComponent domain
  match RDAP_SERVERS tld with
  | none => Except.error ("No RDAP server for ." ++ tld)
  | some _baseUrl =>
    match up with
    | .reply status =>
      if status == 200 || status == 404 then
        Except.ok { domain := domain, available := false, method := .RDAP, speed := some "fast" }
      else if status == 404 then
        Except.ok { domain := domain, available := true, method := .RDAP, speed := some "fast" }
      else
        Except.error ("Request failed with status code " ++ toString status)
    | .netFail msg => Except.error msg

/-- Environment variables read by `checkViaNamecheap`. -/
structure NamecheapEnv where
  apiUser : Option String := none
  apiKey : Option String := none
  clientIp : Option String := none
deriving DecidableEq, Repr

/-- Outcome of the Namecheap axios GET (default `validateStatus`: only 2xx
resolves, carrying the response body text). -/
inductive NamecheapUpstream where
  | reply (data : String)
  | netFail (msg : String)
deriving DecidableEq, Repr

/-- Function `checkViaNamecheap` (src/server.js lines 59-93). -/
def checkViaNamecheap (domain : String) (env : NamecheapEnv) (up : NamecheapUpstream) :
    Except String CheckResult :=
  if !(jsTruthyStr env.apiUser) || !(jsTruthyStr env.apiKey) then
    Except.error "Namecheap credentials not configured"
  else
    match up with
    | .reply data =>
      Except.ok { domain := domain, available := strIncludes data "Available=\"true\"",
                  method := .Namecheap, speed := some "medium" }
    | .netFail msg => Except.error msg

/-- Function `checkDomain` (src/server.js lines 96-116): try RDAP, fall back
to Namecheap, and if both throw, synthesize the error-sentinel result.
Every failure is caught, so the function is total. -/
def checkDomain (domain : String) (rdapUp : RdapUpstream) (env : NamecheapEnv)
    (ncUp : NamecheapUpstream) : CheckResult :=
  match checkViaRDAP domain rdapUp with
  | .ok r => r
  | .error _ =>
    match checkViaNamecheap domain env ncUp with
    | .ok r => r
    | .error _ =>
      { domain := domain, available := false, method := .error,
        error := some "Unable to check availability" }

/-- Parsed `req.body.domains` of a batch request: absent or null, present
but not an array, or an array of domain strings. -/
inductive BatchInput where
  | missing
  | nonArray
  | arr (domains : List String)
deriving DecidableEq, Repr

/-- Result list built by the v1 batch handler, i.e.
`await Promise.all(domains.map(domain => checkDomain(domain)))`, with each
domain's upstream outcomes supplied per domain. -/
def v1BatchResults (domains : List String) (rdap : String → RdapUpstream)
    (env : NamecheapEnv) (nc : String → NamecheapUpstream) : List CheckResult :=
  domains.map fun d => checkDomain d (rdap d) env (nc d)

/-- Response of the v1 batch endpoint (src/server.js lines 140-167). -/
inductive V1BatchResponse where
  | badRequest (msg : String)
  | report (success : Bool) (results : List CheckResult) (totalChecked : Nat) (available : Nat)
deriving DecidableEq, Repr

/-- Handler of the v1 batch endpoint (src/server.js lines 140-167): rejects
when `!domains || !Array.isArray(domains)` or `domains.length > 100` (an
empty array passes both checks), then checks all domains and reports. -/
def checkBatchV1 (input : BatchInput) (rdap : String → RdapUpstream) (env : NamecheapEnv)
    (nc : String → NamecheapUpstream) : V1BatchResponse :=
  match input with
  | .missing => .badRequest "domains must be an array"
  | .nonArray => .badRequest "domains must be an array"
  | .arr domains =>
    if domains.length > 100 then
      .badRequest "Maximum 100 domains per request"
    else
      .report true (v1BatchResults domains rdap env nc)
        (v1BatchResults domains rdap env nc).length
        ((v1BatchResults domains rdap env nc).filter (fun r => r.available)).length

/-- Limits record `rateLimiter.limits` (src/server.js lines 228-231). -/
structure Limits where
  perSecond : Nat
  perHour : Nat
deriving DecidableEq, Repr

/-- Mutable `rateLimiter` counters (src/server.js lines 223-227); timestamps
are `Date.now()` milliseconds as naturals. -/
structure RateLimiterState where
  requestsThisSecond : Nat
  requestsThisHour : Nat
  lastSecondReset : Nat
  lastHourReset : Nat
deriving DecidableEq, Repr

/-- Window-rollover prologue of `enforceRateLimit` (lines 246-254): each
counter is zeroed exactly when the wall-clock time elapsed since its window
start reaches the window period. -/
def rlRollover (st : RateLimiterState) (now : Nat) : RateLimiterState :=
  let st1 :=
    if 1000 ≤ now - st.lastSecondReset then
      { st with requestsThisSecond := 0, lastSecondReset := now }
    else st
  if 3600000 ≤ now - st1.lastHourReset then
    { st1 with requestsThisHour := 0, lastHourReset := now }
  else st1

/-- Decision taken by the synchronous first half of `enforceRateLimit` after
the rollover: fail hard (hourly limit), sleep for `waitTime` ms (per-second
limit), or proceed straight to the increments. -/
inductive RLGate where
  | sleep (waitTime : Nat)
  | proceed
deriving DecidableEq, Repr

/-- Synchronous section of `enforceRateLimit` up to the decision at lines
256-263: rollovers, the hourly hard failure, and the per-second wait
decision. This section contains no `await` and so runs atomically under the
JS run-to-completion model. -/
def rlPhase1 (lims : Limits) (st : RateLimiterState) (now : Nat) :
    RateLimiterState × Except String RLGate :=
  let st1 := rlRollover st now
  if lims.perHour ≤ st1.requestsThisHour then
    (st1, Except.error "Hourly rate limit exceeded - try again in an hour")
  else if lims.perSecond ≤ st1.requestsThisSecond then
    (st1, Except.ok (.sleep (1000 - (now - st1.lastSecondReset))))
  else
    (st1, Except.ok .proceed)

/-- Post-`await` reset of `enforceRateLimit` at lines 265-266, executed at
wake time: unconditionally zero the second counter and restart the second
window at the wake timestamp. -/
def rlWake (st : RateLimiterState) (wakeNow : Nat) : RateLimiterState :=
  { st with requestsThisSecond := 0, lastSecondReset := wakeNow }

/-- Final counter increments of `enforceRateLimit` at lines 269-270. -/
def rlAdmit (st : RateLimiterState) : RateLimiterState :=
  { st with requestsThisSecond := st.requestsThisSecond + 1,
            requestsThisHour := st.requestsThisHour + 1 }

/-- Function `enforceRateLimit` (src/server.js lines 242-271) as one
sequential (non-interleaved) call: `now` is `Date.now()` at entry and
`nowAfterWait` is `Date.now()` after the `setTimeout` wait (unused when no
wait happens). Returns the post-call state and either the thrown error
message or `some waitTime` / `none` recording whether the call slept. -/
def enforceRateLimit (lims : Limits) (st : RateLimiterState) (now nowAfterWait : Nat) :
    RateLimiterState × Except String (Option Nat) :=
  match rlPhase1 lims st now with
  | (st1, .error e) => (st1, Except.error e)
  | (st1, .ok (.sleep w)) => (rlAdmit (rlWake st1 nowAfterWait), Except.ok (some w))
  | (st1, .ok .proceed) => (rlAdmit st1, Except.ok none)

/-- Sequential acquisitions: run `enforceRateLimit` once per
`(now, nowAfterWait)` pair in the list, stopping with `none` as soon as one
call throws. -/
def runAcquisitions (lims : Limits) (st : RateLimiterState) :
    List (Nat × Nat) → Option RateLimiterState
  | [] => some st
  | (t, t') :: rest =>
    match enforceRateLimit lims st t t' with
    | (st1, .ok _) => runAcquisitions lims st1 rest
    | (_, .error _) => none

/-- Single entry of the Name.com `checkAvailability` response's `results`
array; absent JSON fields are `none`. -/
structure NamecomApiResult where
  domainName : String
  purchasable : Option Bool := none
  purchasePrice : Option Nat := none
  renewalPrice : Option Nat := none
  premium : Option Bool := none
  tld : Option String := none
  purchaseType : Option String := none
deriving DecidableEq, Repr, Inhabited

/-- Name.com response body as consumed by the client code. -/
structure NamecomBody where
  results : List NamecomApiResult := []
  message : Option String := none
  details : Option String := none
deriving DecidableEq, Repr

/-- Outcome of the axios call inside `namecomRequest`, whose
`validateStatus` resolves statuses in 200..499: a reply with some status and
body, an `ECONNABORTED` timeout, or a transport failure without response. -/
inductive NamecomUpstream where
  | reply (status : Nat) (body : NamecomBody)
  | timeout
  | netFail (msg : String)
deriving DecidableEq, Repr

/-- Function `namecomRequest` (src/server.js lines 276-334). The rate
limiter is enforced before the network call. A resolved reply with status
at least 400 throws from inside the try block; the catch block maps
`ECONNABORTED` to a timeout message, maps rejected replies (status outside
200..499, which carry axios's generated message) through the 401/403/429 and
general branches, and rethrows everything else, including the rate-limit
error, unchanged. -/
def namecomRequest (lims : Limits) (st : RateLimiterState) (now nowAfterWait : Nat)
    (endpoint : String) (data : Option (List String)) (up : NamecomUpstream) :
    RateLimiterState × Except String NamecomBody :=
  match enforceRateLimit lims st now nowAfterWait with
  | (st', .error e) => (st', Except.error e)
  | (st', .ok _) =>
    (st',
      match up with
      | .timeout => Except.error "Name.com API timeout - please try again"
      | .netFail msg => Except.error msg
      | .reply status body =>
        if 200 ≤ status && status < 500 then
          if 400 ≤ status then
            Except.error ("Name.com API error " ++ toString status ++ ": " ++
              jsOrStr body.message (jsOrStr body.details "Unknown error"))
          else
            Except.ok body
        else
          if status == 401 then
            Except.error "Authentication failed - check API credentials in Render dashboard"
          else if status == 403 then
            Except.error "Access denied - disable 2FA on Name.com account or check IP restrictions"
          else if status == 429 then
            Except.error "Rate limit exceeded - please slow down requests"
          else
            Except.error ("Name.com API error: " ++
              jsOrStr body.message ("Request failed with status code " ++ toString status)))

/-- Per-entry normalization of `checkDomainsViaNamecom` (lines 350-360). -/
def namecomResult (r : NamecomApiResult) : CheckResult :=
  { domain := r.domainName,
    available := r.purchasable == some true,
    method := .Namecom,
    speed := some "fast",
    price := jsOrNullNat r.purchasePrice,
    renewalPrice := jsOrNullNat r.renewalPrice,
    premium := r.premium == some true,
    tld := r.tld,
    purchaseType := r.purchaseType }

/-- List `response.results.map(...)` of `checkDomainsViaNamecom` (lines
350-360): one output entry per entry of the provider's response body, in the
provider's order; the request's domain list does not appear here. -/
def namecomResults (body : NamecomBody) : List CheckResult :=
  body.results.map namecomResult

/-- Function `checkDomainsViaNamecom` (src/server.js lines 339-361). -/
def checkDomainsViaNamecom (lims : Limits) (st : RateLimiterState) (now nowAfterWait : Nat)
    (domains : List String) (up : NamecomUpstream) :
    RateLimiterState × Except String (List CheckResult) :=
  match namecomRequest lims st now nowAfterWait "/v4/domains:checkAvailability"
      (some domains) up with
  | (st', .error e) => (st', Except.error e)
  | (st', .ok body) => (st', Except.ok (namecomResults body))

/-- Response of the v2 batch endpoint (src/server.js lines 406-465). -/
inductive V2BatchResponse where
  | badRequest (msg : String)
  | report (success : Bool) (results : List CheckResult) (totalChecked : Nat)
      (available : Nat) (unavailable : Nat) (duration : Nat) (provider : String)
  | failure (status : Nat) (success : Bool) (errMsg : String) (totalChecked : Nat)
      (available : Nat)
deriving DecidableEq, Repr

/-- Handler of the v2 batch endpoint (src/server.js lines 406-465): rejects
non-arrays, empty arrays, and arrays longer than 100 with HTTP 400 before
any upstream work; otherwise issues one Name.com batch call; a thrown error
is answered with HTTP 429 when its message contains `rate limit`, else 500. -/
def checkBatchV2 (lims : Limits) (st : RateLimiterState) (now nowAfterWait duration : Nat)
    (input : BatchInput) (up : NamecomUpstream) : RateLimiterState × V2BatchResponse :=
  match input with
  | .missing => (st, .badRequest "domains must be an array")
  | .nonArray => (st, .badRequest "domains must be an array")
  | .arr domains =>
    if domains.length == 0 then (st, .badRequest "At least one domain is required")
    else if domains.length > 100 then (st, .badRequest "Maximum 100 domains per request")
    else
      match checkDomainsViaNamecom lims st now nowAfterWait domains up with
      | (st', .ok results) =>
        (st', .report true results results.length
          (results.filter fun r => r.available).length
          (results.length - (results.filter fun r => r.available).length)
          duration "Name.com")
      | (st', .error e) =>
        (st', .failure (if strIncludes e "rate limit" then 429 else 500) false e 0 0)

/-- Porkbun response body fields consumed by the proxy (src/unnamed/part_000). -/
structure PorkbunData where
  status : String
  available : Option String := none
deriving DecidableEq, Repr

/-- Outcome of the Porkbun axios POST (default `validateStatus`: any non-2xx
status rejects, as does a transport failure). -/
inductive PorkbunUpstream where
  | reply (data : PorkbunData)
  | netFail (msg : String)
deriving DecidableEq, Repr

/-- Porkbun proxy configuration, the `PORKBUN_API_KEY` and
`PORKBUN_SECRET_KEY` environment variables. -/
structure PorkbunKeys where
  apiKey : Option String := none
  secretKey : Option String := none
deriving DecidableEq, Repr

/-- Response of the Porkbun single-check handler (src/unnamed/part_000 lines
15-42); note that no body variant carries a `method` or `error` field next
to `available`. -/
inductive PorkbunResponse where
  | badRequest (msg : String)
  | configError (msg : String)
  | okBody (domain : String) (available : Bool)
  | fail500 (domain : String) (available : Bool)
deriving DecidableEq, Repr

/-- Handler of the Porkbun `GET /check` route (src/unnamed/part_000 lines
15-42): a provider reply whose `status` differs from `SUCCESS` is answered
HTTP 200 with `available:false`, exactly like a registered domain. -/
def porkbunCheck (keys : PorkbunKeys) (domain : Option String) (up : PorkbunUpstream) :
    PorkbunResponse :=
  if !(jsTruthyStr domain) then .badRequest "Domain is required"
  else if !(jsTruthyStr keys.apiKey) || !(jsTruthyStr keys.secretKey) then
    .configError "Server configuration error"
  else
    match up with
    | .reply data =>
      if !(data.status == "SUCCESS") then .okBody (domain.getD "") false
      else .okBody (domain.getD "") (data.available == some "yes")
    | .netFail _ => .fail500 (domain.getD "") false

/-!
Helper lemmas shared by the claim theorems.
-/

/-- Helper: `checkViaRDAP` stamps the queried domain into every successful
result. -/
theorem checkViaRDAP_domain {d : String} {up : RdapUpstream} {r : CheckResult}
    (h : checkViaRDAP d up = Except.ok r) : r.domain = d := by
  simp only [checkViaRDAP] at h
  split at h
  · exact absurd h (by simp)
  · split at h
    · split at h
      · rw [← Except.ok.inj h]
      · split at h
        · rw [← Except.ok.inj h]
        · exact absurd h (by simp)
    · exact absurd h (by simp)

/-- Helper: `checkViaNamecheap` stamps the queried domain into every
successful result. -/
theorem checkViaNamecheap_domain {d : String} {env : NamecheapEnv} {up : NamecheapUpstream}
    {r : CheckResult} (h : checkViaNamecheap d env up = Except.ok r) : r.domain = d := by
  simp only [checkViaNamecheap] at h
  split at h
  · exact absurd h (by simp)
  · split at h
    · rw [← Except.ok.inj h]
    · exact absurd h (by simp)

/-- Helper: `checkDomain` always returns a result carrying the queried
domain, whichever branch produced it. -/
theorem checkDomain_domain (d : String) (a : RdapUpstream) (e : NamecheapEnv)
    (n : NamecheapUpstream) : (checkDomain d a e n).domain = d := by
  unfold checkDomain
  rcases h1 : checkViaRDAP d a with m1 | r1
  · rcases h2 : checkViaNamecheap d e n with m2 | r2
    · rfl
    · exact checkViaNamecheap_domain h2
  · exact checkViaRDAP_domain h1

/-- Helper: `rlRollover` written as one record of conditionals. -/
theorem rlRollover_cases (st : RateLimiterState) (now : Nat) :
    rlRollover st now =
      { requestsThisSecond :=
          if 1000 ≤ now - st.lastSecondReset then 0 else st.requestsThisSecond,
        requestsThisHour :=
          if 3600000 ≤ now - st.lastHourReset then 0 else st.requestsThisHour,
        lastSecondReset :=
          if 1000 ≤ now - st.lastSecondReset then now else st.lastSecondReset,
        lastHourReset :=
          if 3600000 ≤ now - st.lastHourReset then now else st.lastHourReset } := by
  unfold rlRollover
  by_cases h1 : 1000 ≤ now - st.lastSecondReset <;>
    by_cases h2 : 3600000 ≤ now - st.lastHourReset <;> simp [h1, h2]

/-- Helper: `enforceRateLimit` written as a conditional over the rolled-over
state, exposing the three branches of the source. -/
theorem enforceRateLimit_eq (lims : Limits) (st : RateLimiterState) (now naw : Nat) :
    enforceRateLimit lims st now naw =
      (if lims.perHour ≤ (rlRollover st now).requestsThisHour then
        (rlRollover st now, Except.error "Hourly rate limit exceeded - try again in an hour")
      else if lims.perSecond ≤ (rlRollover st now).requestsThisSecond then
        (rlAdmit (rlWake (rlRollover st now) naw),
          Except.ok (some (1000 - (now - (rlRollover st now).lastSecondReset))))
      else (rlAdmit (rlRollover st now), Except.ok none)) := by
  unfold enforceRateLimit rlPhase1
  by_cases hH : lims.perHour ≤ (rlRollover st now).requestsThisHour <;>
    by_cases hS : lims.perSecond ≤ (rlRollover st now).requestsThisSecond <;>
      simp [hH, hS]

/-- Helper: from a state whose two windows are live at instant `t` and whose
counters have room for `n` more calls, `n` back-to-back acquisitions at `t`
all succeed and add `n` to both counters. -/
theorem runAcquisitions_replicate (lims : Limits) (t u : Nat) (hu : t - u < 3600000) :
    ∀ (n s0 h0 : Nat), s0 + n ≤ lims.perSecond → h0 + n ≤ lims.perHour →
      runAcquisitions lims ⟨s0, h0, t, u⟩ (List.replicate n (t, t)) =
        some ⟨s0 + n, h0 + n, t, u⟩ := by
  intro n
  induction n with
  | zero => intro s0 h0 _ _; rfl
  | succ n ih =>
    intro s0 h0 hs hh
    have hroll : rlRollover ⟨s0, h0, t, u⟩ t = ⟨s0, h0, t, u⟩ := by
      rw [rlRollover_cases]
      have h1 : ¬ (1000 ≤ t - t) := by omega
      have h2 : ¬ (3600000 ≤ t - u) := by omega
      simp [h1, h2]
    have hstep : enforceRateLimit lims ⟨s0, h0, t, u⟩ t t =
        (⟨s0 + 1, h0 + 1, t, u⟩, Except.ok none) := by
      rw [enforceRateLimit_eq, hroll]
      have hH : ¬ (lims.perHour ≤ h0) := by omega
      have hS : ¬ (lims.perSecond ≤ s0) := by omega
      simp [hH, hS, rlAdmit]
    rw [List.replicate_succ]
    simp only [runAcquisitions, hstep]
    have hrec := ih (s0 + 1) (h0 + 1) (by omega) (by omega)
    rw [hrec]
    have e1 : s0 + 1 + n = s0 + (n + 1) := by omega
    have e2 : h0 + 1 + n = h0 + (n + 1) := by omega
    rw [e1, e2]

/-- Helper: splitting a list by a Boolean predicate partitions its length. -/
theorem length_filter_add_length_filter_not {α : Type} (p : α → Bool) (l : List α) :
    (l.filter p).length + (l.filter fun a => !(p a)).length = l.length := by
  induction l with
  | nil => rfl
  | cons a l ih =>
    by_cases h : p a = true <;> simp [List.filter_cons, h] <;> omega

/-- Helper: the i-th entry of the fan-out result list carries the i-th input
domain (out-of-range indices yield the matching defaults on both sides). -/
theorem v1BatchResults_getD (domains : List String) (rdap : String → RdapUpstream)
    (env : NamecheapEnv) (nc : String → NamecheapUpstream) (i : Nat) :
    ((v1BatchResults domains rdap env nc).getD i default).domain = domains.getD i "" := by
  induction domains generalizing i with
  | nil => simp only [v1BatchResults, List.map_nil, List.getD_nil]; rfl
  | cons d ds ih =>
    cases i with
    | zero => simpa [v1BatchResults] using checkDomain_domain d (rdap d) env (nc d)
    | succ j => simpa [v1BatchResults] using ih j

/-- Helper: the i-th normalized Name.com result carries the i-th upstream
entry's `domainName` (out-of-range indices yield matching defaults). -/
theorem namecomResults_getD (rs : List NamecomApiResult) (i : Nat) :
    ((rs.map namecomResult).getD i default).domain = (rs.getD i default).domainName := by
  induction rs generalizing i with
  | nil => simp only [List.map_nil, List.getD_nil]; rfl
  | cons r rs ih =>
    cases i with
    | zero => simp [namecomResult]
    | succ j => simpa using ih j

/-!
Claim theorems.
-/

/-- Claim C1, evaluated at the failing input: the RDAP adapter's axios call
is configured with `validateStatus` accepting 404 as well as 200, so an
upstream `not found` (HTTP 404) reply RESOLVES and takes the same
`available = false` return as a `found` (HTTP 200) reply — the catch-block
branch mapping 404 to `available = true` is unreachable. This contradicts
the claim and the code's own comments (`404 means domain is available`),
which match the spec: the claim is right and the code is wrong. -/
theorem C1_rdap_404_bug :
    checkViaRDAP "example.com" (.reply 404) =
      Except.ok { domain := "example.com", available := false, method := .RDAP,
                  speed := some "fast" } ∧
    checkViaRDAP "example.com" (.reply 200) =
      Except.ok { domain := "example.com", available := false, method := .RDAP,
                  speed := some "fast" } := by
  exact ⟨rfl, rfl⟩

/-- Claim C2: when the RDAP adapter and the Namecheap fallback both throw,
`checkDomain` still returns normally, with the synthesized error-sentinel
result (`method = error`, `available = false`, non-empty error string); and
since `checkDomain` is total, a batch over `N` domains always yields exactly
`N` result entries. -/
theorem C2_all_adapters_fail_sentinel (domain : String) (rdapUp : RdapUpstream)
    (env : NamecheapEnv) (ncUp : NamecheapUpstream)
    (h1 : ∃ m, checkViaRDAP domain rdapUp = Except.error m)
    (h2 : ∃ m, checkViaNamecheap domain env ncUp = Except.error m) :
    checkDomain domain rdapUp env ncUp =
      { domain := domain, available := false, method := .error,
        error := some "Unable to check availability" } ∧
    (checkDomain domain rdapUp env ncUp).error = some "Unable to check availability" ∧
    "Unable to check availability" ≠ "" ∧
    ∀ (domains : List String) (rdap : String → RdapUpstream)
        (nc : String → NamecheapUpstream),
      (v1BatchResults domains rdap env nc).length = domains.length := by
  obtain ⟨m1, hm1⟩ := h1
  obtain ⟨m2, hm2⟩ := h2
  have hcd : checkDomain domain rdapUp env ncUp =
      { domain := domain, available := false, method := .error,
        error := some "Unable to check availability" } := by
    unfold checkDomain
    rw [hm1, hm2]
  refine ⟨hcd, by rw [hcd], by simp, fun domains rdap nc => ?_⟩
  simp [v1BatchResults]

/-- Witness for C2 at a concrete input: a `.test` domain, for which no RDAP
server is configured, together with unset Namecheap credentials. -/
theorem C2_witness :
    checkDomain "example.test" (.reply 200) {} (.netFail "boom") =
      { domain := "example.test", available := false, method := .error,
        error := some "Unable to check availability" } :=
  (C2_all_adapters_fail_sentinel "example.test" (.reply 200) {} (.netFail "boom")
    ⟨"No RDAP server for .test", rfl⟩ ⟨"Namecheap credentials not configured", rfl⟩).1

/-- Counterexample to claim C3 as stated: a valid one-domain batch for which
the batch-capable Name.com path returns an empty results list, because the
provider replied HTTP 200 with zero `results` entries — the code maps the
provider's response entries, not the input list, so the results list need
not have the same length as the input. -/
theorem C3_counterexample :
    (checkDomainsViaNamecom ⟨20, 3000⟩ ⟨0, 0, 0, 0⟩ 0 0 ["a.com"]
        (.reply 200 { results := [] })).2 = Except.ok [] ∧
    ¬ ([] : List CheckResult).length = (["a.com"] : List String).length := by
  exact ⟨rfl, by simp⟩

/-- Claim C3 (amended): the per-domain fan-out dispatcher returns exactly one
result per input domain, the i-th carrying the i-th input domain; the
batch-capable Name.com path instead mirrors the provider's response list
one-to-one (the i-th result's domain is the i-th response entry's
`domainName`) with no re-sorting, so its report matches the input list's
length and order only when the provider echoes the request in order. -/
theorem C3_order_correspondence (env : NamecheapEnv) :
    (∀ (domains : List String) (rdap : String → RdapUpstream)
        (nc : String → NamecheapUpstream),
      (v1BatchResults domains rdap env nc).length = domains.length ∧
      ∀ i : Nat, ((v1BatchResults domains rdap env nc).getD i default).domain =
        domains.getD i "") ∧
    (∀ body : NamecomBody,
      (namecomResults body).length = body.results.length ∧
      ∀ i : Nat, ((namecomResults body).getD i default).domain =
        (body.results.getD i default).domainName) ∧
    ∀ (lims : Limits) (st : RateLimiterState) (now naw : Nat) (domains : List String)
      (body : NamecomBody) (w : Option Nat),
      (enforceRateLimit lims st now naw).2 = Except.ok w →
      checkDomainsViaNamecom lims st now naw domains (.reply 200 body) =
        ((enforceRateLimit lims st now naw).1, Except.ok (namecomResults body)) := by
  refine ⟨fun domains rdap nc => ⟨by simp [v1BatchResults],
      fun i => v1BatchResults_getD domains rdap env nc i⟩,
    fun body => ⟨by simp [namecomResults],
      fun i => namecomResults_getD body.results i⟩,
    fun lims st now naw domains body w h => ?_⟩
  have hpair : enforceRateLimit lims st now naw =
      ((enforceRateLimit lims st now naw).1, Except.ok w) := by
    conv_lhs => rw [← Prod.mk.eta (p := enforceRateLimit lims st now naw)]
    rw [h]
  have hreq : namecomRequest lims st now naw "/v4/domains:checkAvailability"
      (some domains) (.reply 200 body) =
      ((enforceRateLimit lims st now naw).1, Except.ok body) := by
    unfold namecomRequest
    rw [hpair]
    rfl
  unfold checkDomainsViaNamecom
  rw [hreq]

/-- Witness for C3's Name.com conjunct at a concrete input: a fresh rate
limiter and a provider echoing the single requested domain. -/
theorem C3_witness :
    checkDomainsViaNamecom ⟨20, 3000⟩ ⟨0, 0, 0, 0⟩ 0 0 ["a.com"]
        (.reply 200 { results := [{ domainName := "a.com", purchasable := some true }] }) =
      ((enforceRateLimit ⟨20, 3000⟩ ⟨0, 0, 0, 0⟩ 0 0).1,
        Except.ok (namecomResults
          { results := [{ domainName := "a.com", purchasable := some true }] })) :=
  (C3_order_correspondence {}).2.2 ⟨20, 3000⟩ ⟨0, 0, 0, 0⟩ 0 0 ["a.com"]
    { results := [{ domainName := "a.com", purchasable := some true }] } none (by decide)

/-- Counterexample to claim C4 as stated: with valid keys, the Porkbun
variant answers a provider-level error (`status` field `ERROR`, no
availability fact) with HTTP 200, `available = false` and no method or
error marker — byte-identical to its answer for a genuinely registered
domain, so the caller cannot distinguish failure from unavailability. -/
theorem C4_counterexample :
    porkbunCheck ⟨some "k", some "s"⟩ (some "example.com") (.reply ⟨"ERROR", none⟩) =
      .okBody "example.com" false ∧
    porkbunCheck ⟨some "k", some "s"⟩ (some "example.com") (.reply ⟨"ERROR", none⟩) =
      porkbunCheck ⟨some "k", some "s"⟩ (some "example.com")
        (.reply ⟨"SUCCESS", some "no"⟩) := by
  exact ⟨rfl, rfl⟩

/-- Claim C4 (amended): on the Name.com batch path a provider-level error
(HTTP status at least 400) always surfaces as a thrown error, never as a
CheckResult, so callers can distinguish failure there; but the Porkbun
variant's single-check handler answers a provider reply whose `status` is
not `SUCCESS` with HTTP 200 and `available = false`, with no method or
error field, identically to its answer for a registered domain. -/
theorem C4_failure_distinguishability (lims : Limits) (st : RateLimiterState)
    (now naw status : Nat) (domains : List String) (body : NamecomBody)
    (keys : PorkbunKeys) (d : String) (data : PorkbunData)
    (hst : 400 ≤ status)
    (hkey : jsTruthyStr keys.apiKey = true) (hsec : jsTruthyStr keys.secretKey = true)
    (hd : jsTruthyStr (some d) = true)
    (herr : ¬ ((data.status == "SUCCESS") = true)) :
    (∃ msg, (checkDomainsViaNamecom lims st now naw domains (.reply status body)).2 =
      Except.error msg) ∧
    porkbunCheck keys (some d) (.reply data) = .okBody d false ∧
    porkbunCheck keys (some d) (.reply { status := "SUCCESS", available := some "no" }) =
      .okBody d false := by
  refine ⟨?_, ?_, ?_⟩
  · rcases henf : enforceRateLimit lims st now naw with ⟨st', r⟩
    cases r with
    | error e =>
      refine ⟨e, ?_⟩
      unfold checkDomainsViaNamecom namecomRequest
      rw [henf]
    | ok w =>
      have hreq : ∃ msg, namecomRequest lims st now naw "/v4/domains:checkAvailability"
          (some domains) (.reply status body) = (st', Except.error msg) := by
        unfold namecomRequest
        rw [henf]
        dsimp only
        by_cases h5 : status < 500
        · have hc : (decide (200 ≤ status) && decide (status < 500)) = true := by
            simp only [Bool.and_eq_true, decide_eq_true_eq]
            exact ⟨by omega, h5⟩
          rw [if_pos hc, if_pos hst]
          exact ⟨_, rfl⟩
        · have hc : ¬ ((decide (200 ≤ status) && decide (status < 500)) = true) := by
            simp only [Bool.and_eq_true, decide_eq_true_eq]
            rintro ⟨-, hlt⟩
            exact h5 hlt
          have h401 : ¬ ((status == 401) = true) := by
            simp only [beq_iff_eq]; omega
          have h403 : ¬ ((status == 403) = true) := by
            simp only [beq_iff_eq]; omega
          have h429 : ¬ ((status == 429) = true) := by
            simp only [beq_iff_eq]; omega
          rw [if_neg hc, if_neg h401, if_neg h403, if_neg h429]
          exact ⟨_, rfl⟩
      obtain ⟨msg, hreq⟩ := hreq
      refine ⟨msg, ?_⟩
      unfold checkDomainsViaNamecom
      rw [hreq]
  · unfold porkbunCheck
    rw [hd]
    simp only [hkey, hsec, Bool.not_true, Bool.or_self, Bool.false_eq_true, if_false,
      if_neg (by simp : ¬ ((!true) = true))]
    rw [if_pos (by simpa using herr)]
    rfl
  · unfold porkbunCheck
    rw [hd]
    simp only [hkey, hsec, Bool.not_true, Bool.or_self, Bool.false_eq_true, if_false,
      if_neg (by simp : ¬ ((!true) = true))]
    rfl

/-- Witness for C4 at a concrete input: a Name.com 500 reply, and the
Porkbun handler with configured keys and an `ERROR` provider reply. -/
theorem C4_witness :
    (∃ msg, (checkDomainsViaNamecom ⟨20, 3000⟩ ⟨0, 0, 0, 0⟩ 0 0 ["a.com"]
        (.reply 500 {})).2 = Except.error msg) ∧
    porkbunCheck ⟨some "k", some "s"⟩ (some "example.com") (.reply ⟨"ERROR", none⟩) =
      .okBody "example.com" false ∧
    porkbunCheck ⟨some "k", some "s"⟩ (some "example.com")
        (.reply { status := "SUCCESS", available := some "no" }) =
      .okBody "example.com" false :=
  C4_failure_distinguishability ⟨20, 3000⟩ ⟨0, 0, 0, 0⟩ 0 0 500 ["a.com"] {}
    ⟨some "k", some "s"⟩ "example.com" ⟨"ERROR", none⟩ (by decide) (by decide) (by decide)
    (by decide) (by decide)

/-- Claim C5: starting from a fresh limiter, `perSecond` acquisitions within
the same second all succeed; the `(perSecond+1)`-th within that second takes
the sleep branch (waiting out the remainder of the window, here the full
1000 ms) and then succeeds — it never fails; whereas once the hourly counter
has reached `perHour` within a live hour window, the next acquisition throws
the hourly rate-limit error, and `namecomRequest` then returns that error
for EVERY possible upstream outcome — the failure happens before any
network call. -/
theorem C5_rate_limiter_contract (lims : Limits) (t u naw : Nat)
    (hph : lims.perSecond < lims.perHour) (hu : t - u < 3600000) :
    runAcquisitions lims ⟨0, 0, t, u⟩ (List.replicate lims.perSecond (t, t)) =
      some ⟨lims.perSecond, lims.perSecond, t, u⟩ ∧
    enforceRateLimit lims ⟨lims.perSecond, lims.perSecond, t, u⟩ t naw =
      (⟨1, lims.perSecond + 1, naw, u⟩, Except.ok (some 1000)) ∧
    ∀ (st2 : RateLimiterState) (now2 naw2 : Nat),
      now2 - st2.lastSecondReset < 1000 → now2 - st2.lastHourReset < 3600000 →
      lims.perHour ≤ st2.requestsThisHour →
      enforceRateLimit lims st2 now2 naw2 =
        (st2, Except.error "Hourly rate limit exceeded - try again in an hour") ∧
      ∀ (endpoint : String) (data : Option (List String)) (up : NamecomUpstream),
        (namecomRequest lims st2 now2 naw2 endpoint data up).2 =
          Except.error "Hourly rate limit exceeded - try again in an hour" := by
  refine ⟨?_, ?_, ?_⟩
  · have h := runAcquisitions_replicate lims t u hu lims.perSecond 0 0 (by omega) (by omega)
    simpa using h
  · have hroll : rlRollover ⟨lims.perSecond, lims.perSecond, t, u⟩ t =
        ⟨lims.perSecond, lims.perSecond, t, u⟩ := by
      rw [rlRollover_cases]
      have h1 : ¬ (1000 ≤ t - t) := by omega
      have h2 : ¬ (3600000 ≤ t - u) := by omega
      simp [h1, h2]
    rw [enforceRateLimit_eq, hroll]
    have hH : ¬ (lims.perHour ≤ lims.perSecond) := by omega
    have hts : t - t = 0 := by omega
    simp [hH, hts, rlWake, rlAdmit]
  · intro st2 now2 naw2 hlive1 hlive2 hcap
    have hroll2 : rlRollover st2 now2 = st2 := by
      rw [rlRollover_cases]
      have h1 : ¬ (1000 ≤ now2 - st2.lastSecondReset) := by omega
      have h2 : ¬ (3600000 ≤ now2 - st2.lastHourReset) := by omega
      simp [h1, h2]
    have henf : enforceRateLimit lims st2 now2 naw2 =
        (st2, Except.error "Hourly rate limit exceeded - try again in an hour") := by
      rw [enforceRateLimit_eq, hroll2, if_pos hcap]
    refine ⟨henf, fun endpoint data up => ?_⟩
    unfold namecomRequest
    rw [henf]

/-- Witness for C5 at the configured limits 20/sec and 3000/hour: 20 calls
at time 5 succeed, the 21st sleeps 1000 ms and succeeds at time 1005, and
with the hour counter at 3000 a call at time 7 throws before consulting any
upstream (here a timeout upstream is never reached). -/
theorem C5_witness :
    runAcquisitions ⟨20, 3000⟩ ⟨0, 0, 5, 0⟩ (List.replicate 20 (5, 5)) =
      some ⟨20, 20, 5, 0⟩ ∧
    enforceRateLimit ⟨20, 3000⟩ ⟨20, 20, 5, 0⟩ 5 1005 =
      (⟨1, 21, 1005, 0⟩, Except.ok (some 1000)) ∧
    enforceRateLimit ⟨20, 3000⟩ ⟨0, 3000, 7, 7⟩ 7 7 =
      (⟨0, 3000, 7, 7⟩, Except.error "Hourly rate limit exceeded - try again in an hour") ∧
    (namecomRequest ⟨20, 3000⟩ ⟨0, 3000, 7, 7⟩ 7 7 "/v4/domains:checkAvailability" none
        .timeout).2 =
      Except.error "Hourly rate limit exceeded - try again in an hour" := by
  obtain ⟨a, b, c⟩ := C5_rate_limiter_contract ⟨20, 3000⟩ 5 0 1005 (by decide) (by decide)
  refine ⟨a, b, ?_, ?_⟩
  · exact (c ⟨0, 3000, 7, 7⟩ 7 7 (by decide) (by decide) (by decide)).1
  · exact (c ⟨0, 3000, 7, 7⟩ 7 7 (by decide) (by decide) (by decide)).2
      "/v4/domains:checkAvailability" none .timeout

/-- Claim C6: for a monotone clock (`now` at or after both window starts, the
wake time at or after the end of the slept-out window) and a positive
per-second limit, every completed `enforceRateLimit` call — throwing or not —
leaves `requestsThisSecond ≤ perSecond` and `requestsThisHour ≤ perHour`
when they held before, and a window start only ever moves forward by at
least its full period; moreover the rollover prologue zeroes a nonzero
counter only when the elapsed wall-clock time since that window's start has
reached the period, never merely because requests arrived. -/
theorem C6_window_invariant (lims : Limits) (st : RateLimiterState) (now naw : Nat)
    (hps : 1 ≤ lims.perSecond)
    (hs : st.requestsThisSecond ≤ lims.perSecond)
    (hh : st.requestsThisHour ≤ lims.perHour)
    (hn1 : st.lastSecondReset ≤ now) (hn2 : st.lastHourReset ≤ now)
    (hnaw : now + (1000 - (now - st.lastSecondReset)) ≤ naw) :
    ((enforceRateLimit lims st now naw).1.requestsThisSecond ≤ lims.perSecond ∧
     (enforceRateLimit lims st now naw).1.requestsThisHour ≤ lims.perHour) ∧
    ((enforceRateLimit lims st now naw).1.lastSecondReset = st.lastSecondReset ∨
      st.lastSecondReset + 1000 ≤ (enforceRateLimit lims st now naw).1.lastSecondReset) ∧
    ((enforceRateLimit lims st now naw).1.lastHourReset = st.lastHourReset ∨
      st.lastHourReset + 3600000 ≤ (enforceRateLimit lims st now naw).1.lastHourReset) ∧
    ((rlRollover st now).requestsThisSecond = 0 ∧ st.requestsThisSecond ≠ 0 →
      1000 ≤ now - st.lastSecondReset) ∧
    ((rlRollover st now).requestsThisHour = 0 ∧ st.requestsThisHour ≠ 0 →
      3600000 ≤ now - st.lastHourReset) := by
  have hR := rlRollover_cases st now
  have hRs : (rlRollover st now).requestsThisSecond =
      if 1000 ≤ now - st.lastSecondReset then 0 else st.requestsThisSecond := by rw [hR]
  have hRh : (rlRollover st now).requestsThisHour =
      if 3600000 ≤ now - st.lastHourReset then 0 else st.requestsThisHour := by rw [hR]
  have hRls : (rlRollover st now).lastSecondReset =
      if 1000 ≤ now - st.lastSecondReset then now else st.lastSecondReset := by rw [hR]
  have hRlh : (rlRollover st now).lastHourReset =
      if 3600000 ≤ now - st.lastHourReset then now else st.lastHourReset := by rw [hR]
  have conj4 : (rlRollover st now).requestsThisSecond = 0 ∧ st.requestsThisSecond ≠ 0 →
      1000 ≤ now - st.lastSecondReset := by
    rw [hRs]
    by_cases h1 : 1000 ≤ now - st.lastSecondReset
    · intro _; exact h1
    · rw [if_neg h1]
      rintro ⟨h0, hne⟩
      exact absurd h0 hne
  have conj5 : (rlRollover st now).requestsThisHour = 0 ∧ st.requestsThisHour ≠ 0 →
      3600000 ≤ now - st.lastHourReset := by
    rw [hRh]
    by_cases h2 : 3600000 ≤ now - st.lastHourReset
    · intro _; exact h2
    · rw [if_neg h2]
      rintro ⟨h0, hne⟩
      exact absurd h0 hne
  rw [enforceRateLimit_eq]
  by_cases hH : lims.perHour ≤ (rlRollover st now).requestsThisHour
  · rw [if_pos hH]
    dsimp only
    refine ⟨⟨?_, ?_⟩, ?_, ?_, conj4, conj5⟩
    · rw [hRs]; split <;> omega
    · rw [hRh]; split <;> omega
    · rw [hRls]; split <;> omega
    · rw [hRlh]; split <;> omega
  · rw [if_neg hH]
    by_cases hS : lims.perSecond ≤ (rlRollover st now).requestsThisSecond
    · rw [if_pos hS]
      have hnot1 : ¬ (1000 ≤ now - st.lastSecondReset) := by
        intro h1
        rw [hRs, if_pos h1] at hS
        omega
      dsimp only [rlWake, rlAdmit]
      refine ⟨⟨by omega, ?_⟩, ?_, ?_, conj4, conj5⟩
      · rw [hRh] at hH ⊢
        split at hH <;> split <;> omega
      · right
        omega
      · rw [hRlh]; split <;> omega
    · rw [if_neg hS]
      dsimp only [rlAdmit]
      refine ⟨⟨by omega, ?_⟩, ?_, ?_, conj4, conj5⟩
      · rw [hRh] at hH ⊢
        split at hH <;> split <;> omega
      · rw [hRls]; split <;> omega
      · rw [hRlh]; split <;> omega

/-- Witness for C6 at a concrete input: limits 20/3000, a mid-window state,
and a wake time beyond the window end. -/
theorem C6_witness :
    ((enforceRateLimit ⟨20, 3000⟩ ⟨3, 7, 100, 0⟩ 600 1200).1.requestsThisSecond ≤ 20 ∧
     (enforceRateLimit ⟨20, 3000⟩ ⟨3, 7, 100, 0⟩ 600 1200).1.requestsThisHour ≤ 3000) :=
  (C6_window_invariant ⟨20, 3000⟩ ⟨3, 7, 100, 0⟩ 600 1200 (by decide) (by decide)
    (by decide) (by decide) (by decide) (by decide)).1

/-- Counterexample to claim C7 as stated: the v1 batch endpoint accepts an
empty domains list — it returns a success report with zero results, not an
InvalidInput rejection, because its validation only checks `!domains`,
`!Array.isArray(domains)` and `length > 100`. -/
theorem C7_counterexample :
    checkBatchV1 (.arr []) (fun _ => .reply 200) {} (fun _ => .reply "") =
      .report true [] 0 0 := by
  rfl

/-- Claim C7 (amended): the v2 (Name.com) batch endpoint responds 400 if and
only if the input is not a list, is an empty list, or exceeds 100 domains;
the v1 (RDAP) batch endpoint responds 400 if and only if the input is not a
list or exceeds 100 domains — an empty list is accepted there and yields an
empty success report. In both endpoints a 101-domain request is rejected
uniformly, whatever the upstream would answer, i.e. before any upstream
call, and without touching the rate limiter state. -/
theorem C7_batch_validation (lims : Limits) (st : RateLimiterState) (now naw dur : Nat)
    (up : NamecomUpstream) (rdap : String → RdapUpstream) (env : NamecheapEnv)
    (nc : String → NamecheapUpstream) (input : BatchInput) :
    ((∃ msg, (checkBatchV2 lims st now naw dur input up).2 = .badRequest msg) ↔
      input = .missing ∨ input = .nonArray ∨
        ∃ l, input = .arr l ∧ (l = [] ∨ 100 < l.length)) ∧
    ((∃ msg, checkBatchV1 input rdap env nc = .badRequest msg) ↔
      input = .missing ∨ input = .nonArray ∨ ∃ l, input = .arr l ∧ 100 < l.length) ∧
    ∀ l : List String, 100 < l.length →
      checkBatchV2 lims st now naw dur (.arr l) up =
        (st, .badRequest "Maximum 100 domains per request") ∧
      checkBatchV1 (.arr l) rdap env nc = .badRequest "Maximum 100 domains per request" := by
  have hbig : ∀ l : List String, 100 < l.length →
      checkBatchV2 lims st now naw dur (.arr l) up =
        (st, .badRequest "Maximum 100 domains per request") ∧
      checkBatchV1 (.arr l) rdap env nc = .badRequest "Maximum 100 domains per request" := by
    intro l hl
    constructor
    · unfold checkBatchV2
      dsimp only
      have h0 : ¬ ((l.length == 0) = true) := by
        simp only [beq_iff_eq]
        omega
      rw [if_neg h0, if_pos hl]
    · unfold checkBatchV1
      dsimp only
      rw [if_pos hl]
  refine ⟨?_, ?_, hbig⟩
  · cases input with
    | missing => simp [checkBatchV2]
    | nonArray => simp [checkBatchV2]
    | arr l =>
      by_cases hnil : l = []
      · subst hnil
        simp [checkBatchV2]
      · by_cases hl : 100 < l.length
        · rw [(hbig l hl).1]
          simp [hnil, hl]
        · have h0 : ¬ ((l.length == 0) = true) := by
            simp only [beq_iff_eq, List.length_eq_zero]
            exact hnil
          constructor
          · rintro ⟨msg, hmsg⟩
            unfold checkBatchV2 at hmsg
            dsimp only at hmsg
            rw [if_neg h0, if_neg hl] at hmsg
            rcases hc : checkDomainsViaNamecom lims st now naw l up with ⟨st', r⟩
            rw [hc] at hmsg
            cases r <;> simp at hmsg
          · rintro (h | h | ⟨l', hl', hcase⟩)
            · exact absurd h (by simp)
            · exact absurd h (by simp)
            · obtain rfl : l = l' := by simpa using hl'
              rcases hcase with h | h
              · exact absurd h hnil
              · exact absurd h hl
  · cases input with
    | missing => simp [checkBatchV1]
    | nonArray => simp [checkBatchV1]
    | arr l =>
      by_cases hl : 100 < l.length
      · rw [(hbig l hl).2]
        simp [hl]
      · constructor
        · rintro ⟨msg, hmsg⟩
          unfold checkBatchV1 at hmsg
          dsimp only at hmsg
          rw [if_neg hl] at hmsg
          simp at hmsg
        · rintro (h | h | ⟨l', hl', hcase⟩)
          · exact absurd h (by simp)
          · exact absurd h (by simp)
          · obtain rfl : l = l' := by simpa using hl'
            exact absurd hcase hl

/-- Witness for C7 at a concrete input: a 101-domain batch is rejected by
both endpoints, for an upstream that would only time out. -/
theorem C7_witness :
    checkBatchV2 ⟨20, 3000⟩ ⟨0, 0, 0, 0⟩ 0 0 0 (.arr (List.replicate 101 "a.com"))
        .timeout = (⟨0, 0, 0, 0⟩, .badRequest "Maximum 100 domains per request") ∧
    checkBatchV1 (.arr (List.replicate 101 "a.com")) (fun _ => .reply 200) {}
        (fun _ => .reply "") = .badRequest "Maximum 100 domains per request" :=
  (C7_batch_validation ⟨20, 3000⟩ ⟨0, 0, 0, 0⟩ 0 0 0 .timeout (fun _ => .reply 200) {}
    (fun _ => .reply "") (.arr (List.replicate 101 "a.com"))).2.2
    (List.replicate 101 "a.com") (by simp)

/-- Claim C8: in every successfully produced batch report, the available
count plus the unavailable count equals `totalChecked`. The v2 endpoint
reports all three fields and the equation holds for every report it can
emit (`unavailable` is the count of all non-available results, error
sentinels included, since the filter looks only at `available`); the v1
endpoint reports `totalChecked` and `available`, and its implicit
unavailable count — the results whose `available` is false, error sentinels
included — likewise completes the sum. -/
theorem C8_report_counts (lims : Limits) (st : RateLimiterState) (now naw dur : Nat)
    (input : BatchInput) (up : NamecomUpstream) (rdap : String → RdapUpstream)
    (env : NamecheapEnv) (nc : String → NamecheapUpstream) :
    (∀ (s : Bool) (results : List CheckResult) (total avail unavail d : Nat)
        (prov : String),
      (checkBatchV2 lims st now naw dur input up).2 =
        .report s results total avail unavail d prov →
      avail + unavail = total ∧ total = results.length) ∧
    (∀ (s : Bool) (results : List CheckResult) (total avail : Nat),
      checkBatchV1 input rdap env nc = .report s results total avail →
      avail + (results.filter fun r => !r.available).length = total) := by
  constructor
  · intro s results total avail unavail d prov h
    cases input with
    | missing => simp [checkBatchV2] at h
    | nonArray => simp [checkBatchV2] at h
    | arr l =>
      unfold checkBatchV2 at h
      dsimp only at h
      split at h
      · simp at h
      · split at h
        · simp at h
        · rcases hc : checkDomainsViaNamecom lims st now naw l up with ⟨st', r⟩
          rw [hc] at h
          cases r with
          | error e => simp at h
          | ok rs =>
            simp only [V2BatchResponse.report.injEq] at h
            obtain ⟨-, hrs, htot, hav, hunav, -, -⟩ := h
            subst hrs htot hav hunav
            have hle := List.length_filter_le (fun r => r.available) rs
            omega
  · intro s results total avail h
    cases input with
    | missing => simp [checkBatchV1] at h
    | nonArray => simp [checkBatchV1] at h
    | arr l =>
      unfold checkBatchV1 at h
      dsimp only at h
      split at h
      · simp at h
      · simp only [V1BatchResponse.report.injEq] at h
        obtain ⟨-, hrs, htot, hav⟩ := h
        subst hrs htot hav
        exact length_filter_add_length_filter_not (fun r => r.available)
          (v1BatchResults l rdap env nc)

/-- Witness for C8 at concrete inputs: a one-domain v2 report (1 available +
0 unavailable = 1 checked) and a one-domain v1 report whose only result is
the error sentinel (0 available + 1 unavailable = 1 checked). -/
theorem C8_witness :
    (checkBatchV2 ⟨20, 3000⟩ ⟨0, 0, 0, 0⟩ 0 0 7 (.arr ["a.com"])
        (.reply 200 { results := [{ domainName := "a.com", purchasable := some true }] })).2 =
      .report true [{ domain := "a.com", available := true, method := .Namecom,
                      speed := some "fast" }] 1 1 0 7 "Name.com" ∧
    (1 : Nat) + 0 = 1 ∧
    checkBatchV1 (.arr ["b.test"]) (fun _ => .reply 200) {} (fun _ => .netFail "x") =
      .report true [{ domain := "b.test", available := false, method := .error,
                      error := some "Unable to check availability" }] 1 0 ∧
    (0 : Nat) + 1 = 1 := by
  refine ⟨by decide, ?_, by decide, ?_⟩
  · exact ((C8_report_counts ⟨20, 3000⟩ ⟨0, 0, 0, 0⟩ 0 0 7 (.arr ["a.com"])
      (.reply 200 { results := [{ domainName := "a.com", purchasable := some true }] })
      (fun _ => .reply 200) {} (fun _ => .netFail "x")).1 true
      [{ domain := "a.com", available := true, method := .Namecom, speed := some "fast" }]
      1 1 0 7 "Name.com" (by decide)).1
  · exact (C8_report_counts ⟨20, 3000⟩ ⟨0, 0, 0, 0⟩ 0 0 7 (.arr ["b.test"])
      (.reply 200 { results := [{ domainName := "a.com", purchasable := some true }] })
      (fun _ => .reply 200) {} (fun _ => .netFail "x")).2 true
      [{ domain := "b.test", available := false, method := .error,
         error := some "Unable to check availability" }] 1 0 (by decide)

/-- Counterexample to claim C9 as stated: an explicit interleaving of three
concurrent `enforceRateLimit` calls (the cooperative-scheduling points are
exactly the `await` of the per-second sleep, splitting the call into the
atomic sections `rlPhase1` and `rlWake`-then-`rlAdmit`) in which, with
`perSecond = 1`, task A is admitted at time 0, tasks B and C both observe
the full window in `rlPhase1` (which mutates nothing here) and sleep, and
then both wake at time 1000 and are admitted in the same live second window
starting at 1000 — two admissions against a limit of one, while the second
counter records only 1. -/
theorem C9_counterexample :
    enforceRateLimit ⟨1, 3000⟩ ⟨0, 0, 0, 0⟩ 0 0 = (⟨1, 1, 0, 0⟩, Except.ok none) ∧
    (rlPhase1 ⟨1, 3000⟩ ⟨1, 1, 0, 0⟩ 0).1 = ⟨1, 1, 0, 0⟩ ∧
    (rlPhase1 ⟨1, 3000⟩ ⟨1, 1, 0, 0⟩ 0).2 = Except.ok (.sleep 1000) ∧
    rlAdmit (rlWake ⟨1, 1, 0, 0⟩ 1000) = ⟨1, 2, 1000, 0⟩ ∧
    rlAdmit (rlWake ⟨1, 2, 1000, 0⟩ 1000) = ⟨1, 3, 1000, 0⟩ := by
  exact ⟨rfl, rfl, rfl, rfl, rfl⟩

/-- Claim C9 (amended): only the non-sleeping path of `enforceRateLimit` is
a single critical section; an acquisition that slept re-enters through
`rlWake` and `rlAdmit` without re-checking the counter, so from ANY state
two sleeping acquisitions waking in the same window are both admitted (the
hour counter grows by two) while the second-window counter ends at 1 — the
number of admitted calls within one live window is not bounded by the
configured per-second limit under interleaving. -/
theorem C9_wake_overadmission (st : RateLimiterState) (t : Nat) :
    (rlAdmit (rlWake st t)).requestsThisSecond = 1 ∧
    (rlAdmit (rlWake st t)).lastSecondReset = t ∧
    (rlAdmit (rlWake (rlAdmit (rlWake st t)) t)).requestsThisSecond = 1 ∧
    (rlAdmit (rlWake (rlAdmit (rlWake st t)) t)).lastSecondReset = t ∧
    (rlAdmit (rlWake (rlAdmit (rlWake st t)) t)).requestsThisHour =
      st.requestsThisHour + 2 := by
  exact ⟨rfl, rfl, rfl, rfl, rfl⟩

/-- Claim C10: when `enforceRateLimit` throws the hourly-limit error, the
state it leaves behind is exactly the rolled-over input state — the
wall-clock-driven `rlRollover` of the first lines — and in particular
neither counter has been incremented, so a rejected acquisition never
consumes quota. -/
theorem C10_error_path_state (lims : Limits) (st : RateLimiterState) (now naw : Nat)
    (e : String) (h : (enforceRateLimit lims st now naw).2 = Except.error e) :
    (enforceRateLimit lims st now naw).1 = rlRollover st now ∧
    (enforceRateLimit lims st now naw).1.requestsThisSecond ≤ st.requestsThisSecond ∧
    (enforceRateLimit lims st now naw).1.requestsThisHour ≤ st.requestsThisHour := by
  rw [enforceRateLimit_eq] at h ⊢
  by_cases hH : lims.perHour ≤ (rlRollover st now).requestsThisHour
  · rw [if_pos hH] at h ⊢
    refine ⟨rfl, ?_, ?_⟩ <;> rw [rlRollover_cases] <;> dsimp only <;> split <;> omega
  · rw [if_neg hH] at h
    by_cases hS : lims.perSecond ≤ (rlRollover st now).requestsThisSecond <;>
      simp [hS] at h

/-- Witness for C10 at a concrete input: the hourly counter is already at
the limit, the call throws, and the state is returned unchanged. -/
theorem C10_witness :
    (enforceRateLimit ⟨20, 3000⟩ ⟨5, 3000, 0, 0⟩ 0 0).1 = rlRollover ⟨5, 3000, 0, 0⟩ 0 ∧
    (enforceRateLimit ⟨20, 3000⟩ ⟨5, 3000, 0, 0⟩ 0 0).1.requestsThisSecond ≤ 5 ∧
    (enforceRateLimit ⟨20, 3000⟩ ⟨5, 3000, 0, 0⟩ 0 0).1.requestsThisHour ≤ 3000 :=
  C10_error_path_state ⟨20, 3000⟩ ⟨5, 3000, 0, 0⟩ 0 0
    "Hourly rate limit exceeded - try again in an hour" (by decide)

end DomainChecker
